import Mathlib

/-!
Shallow embedding of the VibeCoders Ideas API.

The repository contains two near-identical service variants:
`src/main.py` (embedded in namespace `Main`, together with
`src/schemas.py`; its module import named `database` has
`src/backend/database.py` as source) and `src/backend/main.py`
(embedded in namespace `Backend`).

Modelling conventions:
- MongoDB collections are lists of documents in natural (insertion)
  order; `insert_one` appends, `find_one` takes the first match.
- Timestamps are integers (seconds); `timedelta(days=n)` is
  `n * secondsPerDay`.
- A BSON ObjectId accepted from a path parameter is a 24-character
  hexadecimal string; `isValidObjectId` is that format check.
- Python `list.sort(key=k, reverse=True)` is a stable descending
  sort: equal keys keep their original relative order.  This is
  exactly `List.insertionSort` with the reflexive relation
  "key of the left element is ≥ key of the right element".
- Python `str.strip()` is `pyStrip` (drop whitespace at both ends).
-/

/-- A BSON ObjectId string token: exactly 24 hexadecimal characters.
`bson.ObjectId(s)` accepts a string `s` exactly in this format. -/
def isValidObjectId (s : String) : Bool :=
  s.length == 24 &&
    s.data.all (fun c => c.isDigit || ('a' ≤ c && c ≤ 'f') || ('A' ≤ c && c ≤ 'F'))

/-- `timedelta(days=1)` in seconds. -/
def secondsPerDay : Int := 86400

/-- Python `str.strip()` on the underlying character list. -/
def stripChars (l : List Char) : List Char :=
  (((l.dropWhile Char.isWhitespace).reverse).dropWhile Char.isWhitespace).reverse

/-- Python `str.strip()`. -/
def pyStrip (s : String) : String :=
  String.mk (stripChars s.data)

/-- Python `x.strip() if x else None` on an optional string: an empty
string is falsy, so it maps to `None`; otherwise the string is
stripped. -/
def pyOptStrip : Option String → Option String
  | none => none
  | some d => if d.data.isEmpty then none else some (pyStrip d)

/-- A stored document of the "idea" collection (attribute set of the
`Idea` schema plus the native `_id`, held here in field `id`). -/
structure IdeaDoc where
  id : String
  title : String
  description : Option String
  votes : Int
  created_at : Int
  updated_at : Int
deriving DecidableEq

/-- A stored document of the "comment" collection. -/
structure CommentDoc where
  id : String
  idea_id : String
  author : Option String
  content : String
  created_at : Int
  updated_at : Int
deriving DecidableEq

/-- The persistent state: the "idea" and "comment" collections. -/
structure Store where
  ideas : List IdeaDoc
  comments : List CommentDoc
deriving DecidableEq

def emptyStore : Store := { ideas := [], comments := [] }

/-- Number of comments whose owning-idea reference equals `ideaId`.
This is the denotation of the grouped aggregation pipeline
(`$match idea_id $in ids`, `$group by idea_id, $sum 1`) followed by
the lookup-with-default-0 merge used by both `list_ideas` variants,
and of `count_documents({"idea_id": ideaId})`. -/
def commentCount (cs : List CommentDoc) (ideaId : String) : Nat :=
  (cs.filter (fun c => c.idea_id == ideaId)).length

/-- An idea as returned by listing endpoints: the stored document
merged with its derived `comments_count`. -/
structure IdeaOut where
  id : String
  title : String
  description : Option String
  votes : Int
  created_at : Int
  updated_at : Int
  comments_count : Nat
deriving DecidableEq

/-- Merge a stored idea with its comment count. -/
def enrich (cs : List CommentDoc) (i : IdeaDoc) : IdeaOut :=
  { id := i.id, title := i.title, description := i.description, votes := i.votes,
    created_at := i.created_at, updated_at := i.updated_at,
    comments_count := commentCount cs i.id }

/-- The idea document built by either create endpoint: votes 0 and both
timestamps stamped with the same current time. -/
def mkIdeaDoc (newId title : String) (descr : Option String) (now : Int) : IdeaDoc :=
  { id := newId, title := title, description := descr, votes := 0,
    created_at := now, updated_at := now }

/-- Descending single-key comparison on votes (root variant sort key). -/
def byVotes (a b : IdeaOut) : Prop := b.votes ≤ a.votes

/-- Descending single-key comparison on comments_count. -/
def byComments (a b : IdeaOut) : Prop := b.comments_count ≤ a.comments_count

/-- Lexicographic ≤ on integer pairs (Python tuple comparison). -/
def pairLe (p q : Int × Int) : Prop :=
  p.1 < q.1 ∨ (p.1 = q.1 ∧ p.2 ≤ q.2)

/-- Descending comparison on the pair (votes, created_at). -/
def byVotesThenCreated (a b : IdeaOut) : Prop :=
  pairLe (b.votes, b.created_at) (a.votes, a.created_at)

/-- Descending comparison on the pair (comments_count, created_at). -/
def byCommentsThenCreated (a b : IdeaOut) : Prop :=
  pairLe ((b.comments_count : Int), b.created_at)
    ((a.comments_count : Int), a.created_at)

/-- Descending comparison of comments by created_at
(Mongo `.sort("created_at", -1)`). -/
def byCreatedDesc (a b : CommentDoc) : Prop := b.created_at ≤ a.created_at

instance : DecidableRel pairLe := fun p q => by
  unfold pairLe; exact inferInstance

instance : DecidableRel byVotes := fun a b => by
  unfold byVotes; exact inferInstance

instance : DecidableRel byComments := fun a b => by
  unfold byComments; exact inferInstance

instance : DecidableRel byVotesThenCreated := fun a b => by
  unfold byVotesThenCreated; exact inferInstance

instance : DecidableRel byCommentsThenCreated := fun a b => by
  unfold byCommentsThenCreated; exact inferInstance

instance : DecidableRel byCreatedDesc := fun a b => by
  unfold byCreatedDesc; exact inferInstance

instance : IsTotal IdeaOut byVotes := ⟨fun _ _ => by unfold byVotes; omega⟩

instance : IsTrans IdeaOut byVotes :=
  ⟨fun a b c h1 h2 => by unfold byVotes at h1 h2 ⊢; omega⟩

instance : IsTotal IdeaOut byComments := ⟨fun _ _ => by unfold byComments; omega⟩

instance : IsTrans IdeaOut byComments :=
  ⟨fun a b c h1 h2 => by unfold byComments at h1 h2 ⊢; omega⟩

instance : IsTotal IdeaOut byVotesThenCreated :=
  ⟨fun a b => by unfold byVotesThenCreated pairLe; omega⟩

instance : IsTrans IdeaOut byVotesThenCreated :=
  ⟨fun a b c h1 h2 => by unfold byVotesThenCreated pairLe at h1 h2 ⊢; omega⟩

instance : IsTotal IdeaOut byCommentsThenCreated :=
  ⟨fun a b => by unfold byCommentsThenCreated pairLe; omega⟩

instance : IsTrans IdeaOut byCommentsThenCreated :=
  ⟨fun a b c h1 h2 => by unfold byCommentsThenCreated pairLe at h1 h2 ⊢; omega⟩

instance : IsTotal CommentDoc byCreatedDesc :=
  ⟨fun a b => by unfold byCreatedDesc; omega⟩

instance : IsTrans CommentDoc byCreatedDesc :=
  ⟨fun a b c h1 h2 => by unfold byCreatedDesc at h1 h2 ⊢; omega⟩

/-- `find_one({"_id": oid})` on the idea collection. -/
def findIdea (l : List IdeaDoc) (oid : String) : Option IdeaDoc :=
  l.find? (fun d => d.id == oid)

/-- `find_one_and_update({"_id": oid}, {"$inc": {"votes": 1},
"$set": {"updated_at": now}}, return_document=True)`: one atomic
per-document store operation.  Updates the first matching document and
returns the post-update document together with the updated collection. -/
def findOneAndUpvote (l : List IdeaDoc) (oid : String) (now : Int) :
    Option IdeaDoc × List IdeaDoc :=
  match l with
  | [] => (none, [])
  | d :: t =>
    if d.id == oid then
      let d2 := { d with votes := d.votes + 1, updated_at := now }
      (some d2, d2 :: t)
    else
      let r := findOneAndUpvote t oid now
      (r.1, d :: r.2)

/-- The store transition performed by one upvote invocation.  Both
variants issue a single `find_one_and_update` with `$inc`, so each
invocation is exactly one atomic store transition — never an
application-level read-then-write. -/
def upvoteStep (s : Store) (oid : String) (now : Int) : Store :=
  { s with ideas := (findOneAndUpvote s.ideas oid now).2 }

/-- A concurrent execution of several upvote invocations on one idea:
since every invocation is a single atomic per-document operation, the
store serializes them in some order; `schedule` lists the invocation
timestamps in that serialization order. -/
def runUpvotes (s : Store) (oid : String) (schedule : List Int) : Store :=
  schedule.foldl (fun st t => upvoteStep st oid t) s

namespace Main

/-- Request model `CreateIdeaRequest` of `src/main.py`: a required
title and an optional description, with no length constraints. -/
structure CreateIdeaRequest where
  title : String
  description : Option String
deriving DecidableEq

/-- A JSON value as produced by `serialize_doc`. -/
inductive JVal
  | s (v : String)
  | i (v : Int)
  | null
deriving DecidableEq

/-- `serialize_doc`: the stored document as a JSON object; `_id` is
popped and re-added as `id`.  (Datetime-to-string conversion is kept
as the integer timestamp.) -/
def serialize_doc (d : IdeaDoc) : List (String × JVal) :=
  [("title", JVal.s d.title),
   ("description", match d.description with | some t => JVal.s t | none => JVal.null),
   ("votes", JVal.i d.votes),
   ("created_at", JVal.i d.created_at),
   ("updated_at", JVal.i d.updated_at),
   ("id", JVal.s d.id)]

/-- `POST /ideas` of `src/main.py`: no trimming and no validation; the
document is built via `create_document` (source
`src/backend/database.py`), which stamps `created_at` and `updated_at`
with the same current time, inserts, and the endpoint refetches the
document by its new id and serializes it.  `newId` is the
store-assigned ObjectId of the insert. -/
def create_idea (s : Store) (payload : CreateIdeaRequest) (newId : String)
    (now : Int) : Option (List (String × JVal)) × Store :=
  let doc : IdeaDoc :=
    { id := newId, title := payload.title, description := payload.description,
      votes := 0, created_at := now, updated_at := now }
  let ideas := s.ideas ++ [doc]
  ((findIdea ideas newId).map serialize_doc, { s with ideas := ideas })

/-- The time filter of `GET /ideas` in `src/main.py`: `week` and
`month` add a `created_at ≥ now − delta` condition; anything else
applies no filter. -/
def timeFilter (s : Store) (range : String) (now : Int) : List IdeaDoc :=
  if range == "week" then
    s.ideas.filter (fun i => now - 7 * secondsPerDay ≤ i.created_at)
  else if range == "month" then
    s.ideas.filter (fun i => now - 30 * secondsPerDay ≤ i.created_at)
  else s.ideas

/-- `GET /ideas` of `src/main.py`: filter, enrich each idea with its
comment count, then `list.sort(key=single field, reverse=True)` —
a stable descending sort on the primary field only. -/
def list_ideas (s : Store) (range : String) (sort : String) (now : Int) :
    List IdeaOut :=
  let enriched := (timeFilter s range now).map (enrich s.comments)
  if sort == "comments" then enriched.insertionSort byComments
  else enriched.insertionSort byVotes

/-- Errors raised by the `src/main.py` endpoints via `HTTPException`. -/
inductive UpErr
  | invalidId
  | notFound
deriving DecidableEq

/-- HTTP status code of each `HTTPException`. -/
def UpErr.status : UpErr → Nat
  | .invalidId => 400
  | .notFound => 404

/-- `POST /ideas/{idea_id}/upvote` of `src/main.py`: a malformed id is
rejected with 400 before any store access; otherwise one atomic
`find_one_and_update` with `$inc`; a missing idea yields 404; success
returns the post-update record. -/
def upvote_idea (s : Store) (ideaId : String) (now : Int) :
    Except UpErr IdeaDoc × Store :=
  if isValidObjectId ideaId then
    match findOneAndUpvote s.ideas ideaId now with
    | (some d, ideas2) => (.ok d, { s with ideas := ideas2 })
    | (none, _) => (.error .notFound, s)
  else (.error .invalidId, s)

/-- `GET /ideas/{idea_id}/comments` of `src/main.py`: a malformed id is
rejected with 400; otherwise the comments with that owning-idea
reference, sorted by created_at descending, with no idea-existence
check. -/
def get_comments (s : Store) (ideaId : String) :
    Except UpErr (List CommentDoc) :=
  if isValidObjectId ideaId then
    .ok ((s.comments.filter (fun c => c.idea_id == ideaId)).insertionSort byCreatedDesc)
  else .error .invalidId

/-- `POST /ideas/{idea_id}/comments` of `src/main.py`: malformed id →
400; nonexistent idea → 404 with nothing persisted; otherwise the
comment is persisted via `create_document` (both timestamps stamped
with the same now) and refetched.  This variant applies no trimming
and no content validation. -/
def add_comment (s : Store) (ideaId : String) (author : Option String)
    (content : String) (newId : String) (now : Int) :
    Except UpErr (Option CommentDoc) × Store :=
  if isValidObjectId ideaId then
    match findIdea s.ideas ideaId with
    | some _ =>
      let c : CommentDoc :=
        { id := newId, idea_id := ideaId, author := author, content := content,
          created_at := now, updated_at := now }
      let comments := s.comments ++ [c]
      (.ok (comments.find? (fun d => d.id == newId)), { s with comments := comments })
    | none => (.error .notFound, s)
  else (.error .invalidId, s)

end Main

namespace Backend

/-- Errors surfaced by the `src/backend/main.py` endpoints:
`validationError` is pydantic request validation (HTTP 422);
`valueError` is the uncaught `ValueError` raised by
`PyObjectId.validate` on a malformed id, surfaced by the framework as
an internal server error (HTTP 500); `notFound` is `HTTPException`
404. -/
inductive Err
  | validationError
  | valueError
  | notFound
deriving DecidableEq

/-- HTTP status code of each error outcome. -/
def Err.status : Err → Nat
  | .validationError => 422
  | .valueError => 500
  | .notFound => 404

/-- `IdeaCreate` pydantic validation: `min_length`/`max_length` apply
to the raw, untrimmed input. -/
def ideaCreateValid (title : String) (descr : Option String) : Bool :=
  1 ≤ title.length && title.length ≤ 200 &&
    (match descr with | some d => d.length ≤ 2000 | none => true)

/-- `CommentCreate` pydantic validation on the untrimmed input. -/
def commentCreateValid (author : Option String) (content : String) : Bool :=
  1 ≤ content.length && content.length ≤ 2000 &&
    (match author with | some a => a.length ≤ 100 | none => true)

/-- `POST /ideas` of `src/backend/main.py`: pydantic validates the raw
input, then title and description are stripped, both timestamps are
set to the same now, the document is inserted and refetched, and the
response carries `comments_count = 0`. -/
def create_idea (s : Store) (title : String) (descr : Option String)
    (newId : String) (now : Int) : Except Err (Option IdeaOut) × Store :=
  if ideaCreateValid title descr then
    let doc : IdeaDoc :=
      { id := newId, title := pyStrip title, description := pyOptStrip descr,
        votes := 0, created_at := now, updated_at := now }
    let ideas := s.ideas ++ [doc]
    (.ok ((findIdea ideas newId).map (fun d =>
      { id := d.id, title := d.title, description := d.description,
        votes := d.votes, created_at := d.created_at, updated_at := d.updated_at,
        comments_count := 0 })), { s with ideas := ideas })
  else (.error .validationError, s)

/-- The time filter of `GET /ideas` in `src/backend/main.py`. -/
def timeFilter (s : Store) (range : String) (now : Int) : List IdeaDoc :=
  if range == "all" then s.ideas
  else if range == "month" then
    s.ideas.filter (fun i => now - 30 * secondsPerDay ≤ i.created_at)
  else
    s.ideas.filter (fun i => now - 7 * secondsPerDay ≤ i.created_at)

/-- `GET /ideas` of `src/backend/main.py`: filter, enrich, then
`list.sort(key=(primary, created_at), reverse=True)` — a stable
descending lexicographic sort with created_at as tie-break. -/
def list_ideas (s : Store) (range : String) (sort : String) (now : Int) :
    List IdeaOut :=
  let items := (timeFilter s range now).map (enrich s.comments)
  if sort == "votes" then items.insertionSort byVotesThenCreated
  else items.insertionSort byCommentsThenCreated

/-- `POST /ideas/{idea_id}/upvote` of `src/backend/main.py`:
`PyObjectId.validate` raises an uncaught `ValueError` on a malformed
id (before any store access); otherwise one atomic
`find_one_and_update` with `$inc`; a missing idea yields 404; success
returns the post-update record enriched with its comment count. -/
def upvote_idea (s : Store) (ideaId : String) (now : Int) :
    Except Err IdeaOut × Store :=
  if isValidObjectId ideaId then
    match findOneAndUpvote s.ideas ideaId now with
    | (some d, ideas2) =>
      (.ok { id := d.id, title := d.title, description := d.description,
             votes := d.votes, created_at := d.created_at,
             updated_at := d.updated_at,
             comments_count := commentCount s.comments ideaId },
       { s with ideas := ideas2 })
    | (none, _) => (.error .notFound, s)
  else (.error .valueError, s)

/-- `GET /ideas/{idea_id}/comments` of `src/backend/main.py`: no check
of any kind; the comments with that owning-idea reference, sorted by
created_at descending. -/
def list_comments (s : Store) (ideaId : String) : List CommentDoc :=
  (s.comments.filter (fun c => c.idea_id == ideaId)).insertionSort byCreatedDesc

/-- `POST /ideas/{idea_id}/comments` of `src/backend/main.py`:
pydantic validates the payload first (framework order), then
`PyObjectId.validate` (uncaught `ValueError` on malformed id), then
the idea-existence check (404, nothing persisted); on success author
and content are stripped, both timestamps set to now, the comment
inserted and refetched. -/
def add_comment (s : Store) (ideaId : String) (author : Option String)
    (content : String) (newId : String) (now : Int) :
    Except Err (Option CommentDoc) × Store :=
  if commentCreateValid author content then
    if isValidObjectId ideaId then
      match findIdea s.ideas ideaId with
      | some _ =>
        let c : CommentDoc :=
          { id := newId, idea_id := ideaId, author := pyOptStrip author,
            content := pyStrip content, created_at := now, updated_at := now }
        let comments := s.comments ++ [c]
        (.ok (comments.find? (fun d => d.id == newId)), { s with comments := comments })
      | none => (.error .notFound, s)
    else (.error .valueError, s)
  else (.error .validationError, s)

end Backend

/-! ### Concrete inputs used by witnesses and counterexamples -/

def oidW : String := "eeeeeeeeeeeeeeeeeeeeeeee"

def witnessIdea : IdeaDoc :=
  { id := oidW, title := "Dark mode", description := some "Add a dark theme",
    votes := 0, created_at := 0, updated_at := 0 }

def witnessStore : Store := { ideas := [witnessIdea], comments := [] }

def oidA : String := "aaaaaaaaaaaaaaaaaaaaaaaa"

def oidB : String := "bbbbbbbbbbbbbbbbbbbbbbbb"

/-- Two ideas with equal votes; the earlier-created one comes first in
store (insertion) order. -/
def tieIdeaA : IdeaDoc :=
  { id := oidA, title := "A", description := none, votes := 5,
    created_at := 1, updated_at := 1 }

def tieIdeaB : IdeaDoc :=
  { id := oidB, title := "B", description := none, votes := 5,
    created_at := 2, updated_at := 2 }

def tieStore : Store := { ideas := [tieIdeaA, tieIdeaB], comments := [] }

def oidX : String := "0123456789abcdef01234567"

def oidY : String := "76543210fedcba9876543210"

def oidCmt : String := "abcabcabcabcabcabcabcabc"

def c2IdeaX : IdeaDoc :=
  { id := oidX, title := "X", description := none, votes := 2,
    created_at := 10, updated_at := 10 }

def c2IdeaY : IdeaDoc :=
  { id := oidY, title := "Y", description := none, votes := 1,
    created_at := 20, updated_at := 20 }

/-- One comment added to idea X, none to idea Y. -/
def c2Store : Store :=
  { ideas := [c2IdeaX, c2IdeaY],
    comments := [{ id := oidCmt, idea_id := oidX, author := some "ann",
                   content := "nice", created_at := 30, updated_at := 30 }] }

/-- Comments used by the C8 witness: two on idea `oidX` (created at 1
and 2) and one on idea `oidY`. -/
def c8Store : Store :=
  { ideas := [],
    comments :=
      [{ id := oidCmt, idea_id := oidX, author := none, content := "one",
         created_at := 1, updated_at := 1 },
       { id := oidA, idea_id := oidY, author := none, content := "other",
         created_at := 5, updated_at := 5 },
       { id := oidB, idea_id := oidX, author := none, content := "two",
         created_at := 2, updated_at := 2 }] }

def title200 : String := String.mk (List.replicate 200 'a')

def title201 : String := String.mk (List.replicate 201 'a')

def darkReq : Main.CreateIdeaRequest :=
  { title := "Dark mode", description := some "Add a dark theme" }

/-- The serialized response of the root create endpoint for the
spec's example input on an empty store. -/
def rootCreateResp : List (String × Main.JVal) :=
  ((Main.create_idea emptyStore darkReq oidA 0).1).getD []


/-! ### Helper lemmas -/

theorem findOneAndUpvote_fst (l : List IdeaDoc) (oid : String) (now : Int) :
    (findOneAndUpvote l oid now).1 =
      (findIdea l oid).map (fun d => { d with votes := d.votes + 1, updated_at := now }) := by
  induction l with
  | nil => rfl
  | cons d t ih =>
    by_cases h : (d.id == oid) = true
    · simp [findOneAndUpvote, findIdea, List.find?, h]
    · simp only [Bool.not_eq_true] at h
      simp [findOneAndUpvote, findIdea, List.find?, h] at ih ⊢
      exact ih

theorem findIdea_findOneAndUpvote (l : List IdeaDoc) (oid : String) (now : Int) :
    findIdea (findOneAndUpvote l oid now).2 oid =
      (findIdea l oid).map (fun d => { d with votes := d.votes + 1, updated_at := now }) := by
  induction l with
  | nil => rfl
  | cons d t ih =>
    by_cases h : (d.id == oid) = true
    · simp [findOneAndUpvote, findIdea, List.find?, h]
    · simp only [Bool.not_eq_true] at h
      simp [findOneAndUpvote, findIdea, List.find?, h] at ih ⊢
      exact ih

theorem findIdea_append_fresh (l : List IdeaDoc) (d : IdeaDoc)
    (h : ∀ i ∈ l, i.id ≠ d.id) : findIdea (l ++ [d]) d.id = some d := by
  induction l with
  | nil => simp [findIdea, List.find?]
  | cons a t ih =>
    have ha : (a.id == d.id) = false := by
      simp only [beq_eq_false_iff_ne]
      exact h a (List.mem_cons_self a t)
    simp only [findIdea, List.cons_append, List.find?, ha]
    exact ih (fun i hi => h i (List.mem_cons_of_mem a hi))

theorem main_list_ideas_perm (s : Store) (range sortKey : String) (now : Int) :
    List.Perm (Main.list_ideas s range sortKey now)
      ((Main.timeFilter s range now).map (enrich s.comments)) := by
  simp only [Main.list_ideas]
  split
  · exact List.perm_insertionSort _ _
  · exact List.perm_insertionSort _ _

theorem backend_list_ideas_perm (s : Store) (range sortKey : String) (now : Int) :
    List.Perm (Backend.list_ideas s range sortKey now)
      ((Backend.timeFilter s range now).map (enrich s.comments)) := by
  simp only [Backend.list_ideas]
  split
  · exact List.perm_insertionSort _ _
  · exact List.perm_insertionSort _ _

theorem findIdea_upvoteStep (s : Store) (oid : String) (t : Int) :
    findIdea (upvoteStep s oid t).ideas oid =
      (findIdea s.ideas oid).map (fun d => { d with votes := d.votes + 1, updated_at := t }) :=
  findIdea_findOneAndUpvote s.ideas oid t

/-! ### Claim C3 -/

/-- C3: for every existing idea and every number N of concurrent upvote
invocations, the final vote count is exactly the initial count plus N.
Each invocation is embedded as the single atomic per-document store
transition `upvoteStep` (the `find_one_and_update` with `$inc` issued by
both variants), not an application-level read-then-write, so a
concurrent execution of N invocations is their serialization in some
order, listed by `schedule`; no update is lost. -/
theorem upvote_concurrent_no_lost_updates (s : Store) (oid : String) (d : IdeaDoc)
    (schedule : List Int) (h : findIdea s.ideas oid = some d) :
    (findIdea (runUpvotes s oid schedule).ideas oid).map (fun x => x.votes) =
      some (d.votes + schedule.length) := by
  induction schedule generalizing s d with
  | nil => simp [runUpvotes, h]
  | cons t ts ih =>
    have h2 : findIdea (upvoteStep s oid t).ideas oid =
        some { d with votes := d.votes + 1, updated_at := t } := by
      rw [findIdea_upvoteStep, h]; rfl
    have h3 := ih (upvoteStep s oid t) _ h2
    have h4 : runUpvotes s oid (t :: ts) = runUpvotes (upvoteStep s oid t) oid ts := rfl
    rw [h4, h3]
    congr 1
    simp only [List.length_cons]
    push_cast
    ring

/-- C3 witness: three serialized upvote invocations on an idea created
with votes 0 end at exactly 3 votes. -/
theorem upvote_concurrent_no_lost_updates_witness :
    (findIdea (runUpvotes witnessStore oidW [10, 20, 30]).ideas oidW).map
      (fun x => x.votes) = some 3 := by
  have := upvote_concurrent_no_lost_updates witnessStore oidW witnessIdea [10, 20, 30]
    (by decide)
  simpa using this

/-! ### Claim C1 -/

/-- C1 counterexample: on two ideas with votes 5 created at times 1 and
2 (store order: older first), the root variant returns them in store
order — votes pairs [(5, 1), (5, 2)] — because its sort key is votes
alone and Python sorting is stable.  The claimed order (ties broken by
created_at descending) would be [(5, 2), (5, 1)], so the returned list
is not sorted by (votes, created_at) descending. -/
theorem root_list_ideas_tie_not_by_created :
    (Main.list_ideas tieStore "all" "votes" 100).map
        (fun x => (x.votes, x.created_at)) = [(5, 1), (5, 2)] ∧
      ¬ List.Sorted byVotesThenCreated (Main.list_ideas tieStore "all" "votes" 100) := by
  decide

/-- C1 amended: the backend variant returns ideas ordered by the
primary sort field (votes for sortKey=votes, comments_count for
sortKey=comments) descending with ties broken by created_at descending;
the root variant orders by the primary field descending only, ties
keeping the store order (no created_at tie-break). -/
theorem list_ideas_sort_order (s : Store) (range : String) (now : Int) :
    List.Sorted byVotesThenCreated (Backend.list_ideas s range "votes" now) ∧
      List.Sorted byCommentsThenCreated (Backend.list_ideas s range "comments" now) ∧
      List.Sorted byVotes (Main.list_ideas s range "votes" now) ∧
      List.Sorted byComments (Main.list_ideas s range "comments" now) := by
  refine ⟨?_, ?_, ?_, ?_⟩
  · simp only [Backend.list_ideas]
    rw [if_pos (show (("votes" == "votes") = true) from rfl)]
    exact List.sorted_insertionSort _ _
  · simp only [Backend.list_ideas]
    rw [if_neg (by decide)]
    exact List.sorted_insertionSort _ _
  · simp only [Main.list_ideas]
    rw [if_neg (by decide)]
    exact List.sorted_insertionSort _ _
  · simp only [Main.list_ideas]
    rw [if_pos (show (("comments" == "comments") = true) from rfl)]
    exact List.sorted_insertionSort _ _

/-! ### Claim C7 -/

/-- C7: both variants return, up to ordering, exactly the ideas passing
the time filter: with range week those with created_at ≥ now − 7 days,
with range month those with created_at ≥ now − 30 days, and with range
all every idea (each merged with its comment count by `enrich`). -/
theorem list_ideas_time_range (s : Store) (sortKey : String) (now : Int) :
    List.Perm (Main.list_ideas s "all" sortKey now)
        (s.ideas.map (enrich s.comments)) ∧
      List.Perm (Main.list_ideas s "week" sortKey now)
        ((s.ideas.filter (fun i => now - 7 * secondsPerDay ≤ i.created_at)).map
          (enrich s.comments)) ∧
      List.Perm (Main.list_ideas s "month" sortKey now)
        ((s.ideas.filter (fun i => now - 30 * secondsPerDay ≤ i.created_at)).map
          (enrich s.comments)) ∧
      List.Perm (Backend.list_ideas s "all" sortKey now)
        (s.ideas.map (enrich s.comments)) ∧
      List.Perm (Backend.list_ideas s "week" sortKey now)
        ((s.ideas.filter (fun i => now - 7 * secondsPerDay ≤ i.created_at)).map
          (enrich s.comments)) ∧
      List.Perm (Backend.list_ideas s "month" sortKey now)
        ((s.ideas.filter (fun i => now - 30 * secondsPerDay ≤ i.created_at)).map
          (enrich s.comments)) := by
  have hma : Main.timeFilter s "all" now = s.ideas := by
    simp [Main.timeFilter]
  have hmw : Main.timeFilter s "week" now =
      s.ideas.filter (fun i => now - 7 * secondsPerDay ≤ i.created_at) := by
    simp [Main.timeFilter]
  have hmm : Main.timeFilter s "month" now =
      s.ideas.filter (fun i => now - 30 * secondsPerDay ≤ i.created_at) := by
    simp [Main.timeFilter]
  have hba : Backend.timeFilter s "all" now = s.ideas := by
    simp [Backend.timeFilter]
  have hbw : Backend.timeFilter s "week" now =
      s.ideas.filter (fun i => now - 7 * secondsPerDay ≤ i.created_at) := by
    simp [Backend.timeFilter]
  have hbm : Backend.timeFilter s "month" now =
      s.ideas.filter (fun i => now - 30 * secondsPerDay ≤ i.created_at) := by
    simp [Backend.timeFilter]
  refine ⟨?_, ?_, ?_, ?_, ?_, ?_⟩
  · simpa [hma] using main_list_ideas_perm s "all" sortKey now
  · simpa [hmw] using main_list_ideas_perm s "week" sortKey now
  · simpa [hmm] using main_list_ideas_perm s "month" sortKey now
  · simpa [hba] using backend_list_ideas_perm s "all" sortKey now
  · simpa [hbw] using backend_list_ideas_perm s "week" sortKey now
  · simpa [hbm] using backend_list_ideas_perm s "month" sortKey now

/-! ### Claim C2 -/

/-- C2: every idea returned by either `list_ideas` variant carries a
`comments_count` equal to the number of comments whose owning-idea
reference equals that idea's identifier (0 when it has none). -/
theorem list_ideas_comments_count (s : Store) (range sortKey : String)
    (now : Int) (x : IdeaOut) :
    (x ∈ Main.list_ideas s range sortKey now →
      x.comments_count = commentCount s.comments x.id) ∧
    (x ∈ Backend.list_ideas s range sortKey now →
      x.comments_count = commentCount s.comments x.id) := by
  constructor
  · intro hx
    have hp := (main_list_ideas_perm s range sortKey now).mem_iff.1 hx
    obtain ⟨i, _, rfl⟩ := List.mem_map.1 hp
    rfl
  · intro hx
    have hp := (backend_list_ideas_perm s range sortKey now).mem_iff.1 hx
    obtain ⟨i, _, rfl⟩ := List.mem_map.1 hp
    rfl

/-- C2 witness: after adding one comment to idea X, the listed X
carries comments_count equal to its comment count, which is 1, while
idea Y's count is 0. -/
theorem list_ideas_comments_count_witness :
    (enrich c2Store.comments c2IdeaX).comments_count =
        commentCount c2Store.comments (enrich c2Store.comments c2IdeaX).id ∧
      commentCount c2Store.comments c2IdeaX.id = 1 ∧
      commentCount c2Store.comments c2IdeaY.id = 0 :=
  ⟨(list_ideas_comments_count c2Store "all" "votes" 0
      (enrich c2Store.comments c2IdeaX)).1 (by decide),
    by decide, by decide⟩

/-! ### Claim C4 -/

/-- C4 amended: the root variant behaves exactly as claimed — a
malformed identifier fails with InvalidId (HTTP 400) before touching
the store, a well-formed identifier of no existing idea fails with
NotFound (404), and otherwise the post-update record is returned with
votes incremented by exactly 1 and updated_at set to now.  The backend
variant behaves the same in the last two cases, but on a malformed
identifier it raises an uncaught ValueError (surfaced as a server
error, not a 400-class InvalidId), likewise before touching the
store. -/
theorem upvote_characterization (s : Store) (ideaId : String) (now : Int) :
    (isValidObjectId ideaId = false →
      Main.upvote_idea s ideaId now = (.error .invalidId, s) ∧
        Backend.upvote_idea s ideaId now = (.error .valueError, s) ∧
        Main.UpErr.status .invalidId = 400) ∧
    (isValidObjectId ideaId = true → findIdea s.ideas ideaId = none →
      Main.upvote_idea s ideaId now = (.error .notFound, s) ∧
        Backend.upvote_idea s ideaId now = (.error .notFound, s) ∧
        Main.UpErr.status .notFound = 404 ∧ Backend.Err.status .notFound = 404) ∧
    (∀ d, isValidObjectId ideaId = true → findIdea s.ideas ideaId = some d →
      (Main.upvote_idea s ideaId now).1 =
          .ok { d with votes := d.votes + 1, updated_at := now } ∧
        (Backend.upvote_idea s ideaId now).1 =
          .ok { id := d.id, title := d.title, description := d.description,
                votes := d.votes + 1, created_at := d.created_at,
                updated_at := now,
                comments_count := commentCount s.comments ideaId }) := by
  refine ⟨?_, ?_, ?_⟩
  · intro h
    refine ⟨?_, ?_, rfl⟩ <;> simp [Main.upvote_idea, Backend.upvote_idea, h]
  · intro h hn
    rcases hfou : findOneAndUpvote s.ideas ideaId now with ⟨o, l2⟩
    have hfst := findOneAndUpvote_fst s.ideas ideaId now
    rw [hfou, hn] at hfst
    simp only [Option.map_none'] at hfst
    subst hfst
    refine ⟨?_, ?_, rfl, rfl⟩ <;> simp [Main.upvote_idea, Backend.upvote_idea, h, hfou]
  · intro d h hd
    rcases hfou : findOneAndUpvote s.ideas ideaId now with ⟨o, l2⟩
    have hfst := findOneAndUpvote_fst s.ideas ideaId now
    rw [hfou, hd] at hfst
    simp only [Option.map_some'] at hfst
    subst hfst
    constructor <;> simp [Main.upvote_idea, Backend.upvote_idea, h, hfou]

/-- C4 counterexample: in the backend variant, upvoting with the
malformed identifier "zzz" does not fail with a 400-class InvalidId
client error: `PyObjectId.validate` raises a ValueError that no
handler catches, surfaced with status 500, which is not in the 400
class. -/
theorem backend_upvote_malformed_not_client_error :
    (Backend.upvote_idea emptyStore "zzz" 0).1 = .error .valueError ∧
      Backend.Err.status .valueError = 500 ∧
      ¬ (400 ≤ Backend.Err.status Backend.Err.valueError ∧
        Backend.Err.status Backend.Err.valueError < 500) := by
  refine ⟨rfl, rfl, by decide⟩

/-- C4 witness: concrete runs of the three cases — malformed id,
well-formed id of no idea, and a successful upvote of an idea with
votes 0 at time 5. -/
theorem upvote_characterization_witness :
    Main.upvote_idea emptyStore "zzz" 0 = (.error .invalidId, emptyStore) ∧
      Main.upvote_idea emptyStore oidA 0 = (.error .notFound, emptyStore) ∧
      Backend.upvote_idea emptyStore oidA 0 = (.error .notFound, emptyStore) ∧
      (Main.upvote_idea witnessStore oidW 5).1 =
        .ok { witnessIdea with votes := witnessIdea.votes + 1, updated_at := 5 } ∧
      (Backend.upvote_idea witnessStore oidW 5).1 =
        .ok { id := witnessIdea.id, title := witnessIdea.title,
              description := witnessIdea.description,
              votes := witnessIdea.votes + 1,
              created_at := witnessIdea.created_at, updated_at := 5,
              comments_count := commentCount witnessStore.comments oidW } := by
  refine ⟨((upvote_characterization emptyStore "zzz" 0).1 (by decide)).1,
    ((upvote_characterization emptyStore oidA 0).2.1 (by decide) (by decide)).1,
    ((upvote_characterization emptyStore oidA 0).2.1 (by decide) (by decide)).2.1,
    ((upvote_characterization witnessStore oidW 5).2.2 witnessIdea (by decide)
      (by decide)).1,
    ((upvote_characterization witnessStore oidW 5).2.2 witnessIdea (by decide)
      (by decide)).2⟩

/-! ### Claim C6 -/

/-- C6: in both variants, creating a comment under a well-formed idea
identifier that no existing idea has fails with NotFound and leaves the
store — in particular the comment collection — unchanged (the payload
is assumed to pass the backend's request validation, which the
framework runs first). -/
theorem add_comment_nonexistent_idea (s : Store) (ideaId : String)
    (author : Option String) (content : String) (newId : String) (now : Int)
    (hid : isValidObjectId ideaId = true)
    (habs : findIdea s.ideas ideaId = none)
    (hpayload : Backend.commentCreateValid author content = true) :
    Main.add_comment s ideaId author content newId now = (.error .notFound, s) ∧
      Backend.add_comment s ideaId author content newId now =
        (.error .notFound, s) := by
  constructor
  · simp [Main.add_comment, hid, habs]
  · simp [Backend.add_comment, hid, habs, hpayload]

/-- C6 witness: on an empty store (no idea has id `oidA`), adding a
comment with valid content under `oidA` yields NotFound in both
variants and persists nothing. -/
theorem add_comment_nonexistent_idea_witness :
    Main.add_comment emptyStore oidA none "hi" oidB 0 =
        (.error .notFound, emptyStore) ∧
      Backend.add_comment emptyStore oidA none "hi" oidB 0 =
        (.error .notFound, emptyStore) :=
  add_comment_nonexistent_idea emptyStore oidA none "hi" oidB 0
    (by decide) (by decide) (by decide)

/-! ### Claim C8 -/

/-- C8: for every well-formed idea identifier, both comment-listing
variants return exactly the comments whose owning-idea reference
equals it (up to order), sorted by created_at descending, with no
check that the idea exists: when no comment references the identifier
— in particular when the idea itself is absent — the result is the
empty sequence.  (The root variant additionally requires the
identifier to be well-formed, rejecting others with InvalidId before
querying; the backend variant applies no check at all.) -/
theorem list_comments_by_idea (s : Store) (ideaId : String) :
    (isValidObjectId ideaId = true →
      ∃ out, Main.get_comments s ideaId = .ok out ∧
        List.Perm out (s.comments.filter (fun c => c.idea_id == ideaId)) ∧
        List.Sorted byCreatedDesc out ∧
        ((∀ c ∈ s.comments, c.idea_id ≠ ideaId) → out = [])) ∧
    (List.Perm (Backend.list_comments s ideaId)
        (s.comments.filter (fun c => c.idea_id == ideaId)) ∧
      List.Sorted byCreatedDesc (Backend.list_comments s ideaId) ∧
      ((∀ c ∈ s.comments, c.idea_id ≠ ideaId) →
        Backend.list_comments s ideaId = [])) := by
  have hnil : (∀ c ∈ s.comments, c.idea_id ≠ ideaId) →
      s.comments.filter (fun c => c.idea_id == ideaId) = [] := by
    intro hc
    refine List.filter_eq_nil_iff.mpr (fun c hcm => ?_)
    simpa using hc c hcm
  constructor
  · intro hid
    refine ⟨(s.comments.filter (fun c => c.idea_id == ideaId)).insertionSort
        byCreatedDesc, ?_, List.perm_insertionSort _ _,
      List.sorted_insertionSort _ _, ?_⟩
    · simp [Main.get_comments, hid]
    · intro hc
      rw [hnil hc]
      rfl
  · refine ⟨?_, ?_, ?_⟩
    · simpa [Backend.list_comments] using
        List.perm_insertionSort byCreatedDesc
          (s.comments.filter (fun c => c.idea_id == ideaId))
    · simpa [Backend.list_comments] using
        List.sorted_insertionSort byCreatedDesc
          (s.comments.filter (fun c => c.idea_id == ideaId))
    · intro hc
      simp only [Backend.list_comments]
      rw [hnil hc]
      rfl

/-- C8 witness: listing comments of `oidX` (whose idea does not even
exist in the store) succeeds in both variants with exactly the two
matching comments, newest first. -/
theorem list_comments_by_idea_witness :
    (∃ out, Main.get_comments c8Store oidX = .ok out ∧
      List.Perm out (c8Store.comments.filter (fun c => c.idea_id == oidX)) ∧
      List.Sorted byCreatedDesc out ∧
      ((∀ c ∈ c8Store.comments, c.idea_id ≠ oidX) → out = [])) ∧
    (List.Perm (Backend.list_comments c8Store oidX)
        (c8Store.comments.filter (fun c => c.idea_id == oidX)) ∧
      List.Sorted byCreatedDesc (Backend.list_comments c8Store oidX) ∧
      ((∀ c ∈ c8Store.comments, c.idea_id ≠ oidX) →
        Backend.list_comments c8Store oidX = [])) :=
  ⟨(list_comments_by_idea c8Store oidX).1 (by decide),
    (list_comments_by_idea c8Store oidX).2⟩

/-! ### Create-endpoint helper lemmas -/

theorem ideaCreateValid_iff (title : String) (descr : Option String) :
    Backend.ideaCreateValid title descr = true ↔
      ¬ (title.length = 0 ∨ 200 < title.length ∨
        ∃ d, descr = some d ∧ 2000 < d.length) := by
  unfold Backend.ideaCreateValid
  cases descr with
  | none => simp; omega
  | some d => simp; omega

/-- On valid input with a fresh store-assigned id, the backend create
succeeds, storing and returning the stripped title and description. -/
theorem backend_create_ok (s : Store) (title : String) (descr : Option String)
    (newId : String) (now : Int)
    (hv : Backend.ideaCreateValid title descr = true)
    (hfresh : ∀ i ∈ s.ideas, i.id ≠ newId) :
    Backend.create_idea s title descr newId now =
      (.ok (some { id := newId, title := pyStrip title,
                   description := pyOptStrip descr, votes := 0,
                   created_at := now, updated_at := now,
                   comments_count := 0 }),
        { s with ideas := s.ideas ++
            [mkIdeaDoc newId (pyStrip title) (pyOptStrip descr) now] }) := by
  have hfind : findIdea
      (s.ideas ++ [mkIdeaDoc newId (pyStrip title) (pyOptStrip descr) now]) newId =
      some (mkIdeaDoc newId (pyStrip title) (pyOptStrip descr) now) :=
    findIdea_append_fresh s.ideas _ hfresh
  simp [Backend.create_idea, mkIdeaDoc] at hfind ⊢
  simp [hv, hfind]

theorem backend_create_error_iff (s : Store) (title : String)
    (descr : Option String) (newId : String) (now : Int) :
    Backend.create_idea s title descr newId now = (.error .validationError, s) ↔
      (title.length = 0 ∨ 200 < title.length ∨
        ∃ d, descr = some d ∧ 2000 < d.length) := by
  by_cases hv : Backend.ideaCreateValid title descr = true
  · have hr := (ideaCreateValid_iff title descr).1 hv
    simp [Backend.create_idea, hv, hr]
  · have hr : title.length = 0 ∨ 200 < title.length ∨
        ∃ d, descr = some d ∧ 2000 < d.length := by
      by_contra hR
      exact hv ((ideaCreateValid_iff title descr).2 hR)
    have hv2 : Backend.ideaCreateValid title descr = false :=
      Bool.not_eq_true _ |>.mp hv
    simp [Backend.create_idea, hv2, hr]

/-- The root create endpoint with a fresh store-assigned id: no
validation and no trimming; the inserted document is refetched and
serialized. -/
theorem root_create_ok (s : Store) (payload : Main.CreateIdeaRequest)
    (newId : String) (now : Int)
    (hfresh : ∀ i ∈ s.ideas, i.id ≠ newId) :
    Main.create_idea s payload newId now =
      (some (Main.serialize_doc
          (mkIdeaDoc newId payload.title payload.description now)),
        { s with ideas := s.ideas ++
            [mkIdeaDoc newId payload.title payload.description now] }) := by
  have hfind : findIdea
      (s.ideas ++ [mkIdeaDoc newId payload.title payload.description now]) newId =
      some (mkIdeaDoc newId payload.title payload.description now) :=
    findIdea_append_fresh s.ideas _ hfresh
  simp [Main.create_idea, mkIdeaDoc] at hfind ⊢
  simp [hfind]

/-! ### Claim C5 -/

/-- C5 counterexample: the root variant applies no validation and no
trimming at all — creating an idea with the empty title succeeds (no
ValidationError) and a title with surrounding whitespace is stored
untrimmed. -/
theorem root_create_no_validation :
    (Main.create_idea emptyStore { title := "", description := none }
        oidA 0).1.isSome = true ∧
      ((Main.create_idea emptyStore { title := "", description := none }
        oidA 0).2.ideas.map (fun d => d.title)) = [""] ∧
      ((Main.create_idea emptyStore { title := "  x  ", description := none }
        oidB 0).2.ideas.map (fun d => d.title)) = ["  x  "] := by
  decide

/-- C5 amended: in the backend variant, idea create fails with
ValidationError exactly when the untrimmed title is empty or longer
than 200 characters or the untrimmed description is longer than 2000
characters (so title length 0 is rejected, 200 accepted, 201
rejected), and on success the stored and returned title and
description are the whitespace-trimmed inputs.  The root variant
applies no trimming and no validation. -/
theorem create_idea_validation_behavior (s : Store) (title : String)
    (descr : Option String) (newId : String) (now : Int) :
    (Backend.create_idea s title descr newId now = (.error .validationError, s) ↔
      (title.length = 0 ∨ 200 < title.length ∨
        ∃ d, descr = some d ∧ 2000 < d.length)) ∧
    (Backend.ideaCreateValid title descr = true →
      (∀ i ∈ s.ideas, i.id ≠ newId) →
      Backend.create_idea s title descr newId now =
        (.ok (some { id := newId, title := pyStrip title,
                     description := pyOptStrip descr, votes := 0,
                     created_at := now, updated_at := now,
                     comments_count := 0 }),
          { s with ideas := s.ideas ++
              [mkIdeaDoc newId (pyStrip title) (pyOptStrip descr) now] })) :=
  ⟨backend_create_error_iff s title descr newId now,
    fun hv hfresh => backend_create_ok s title descr newId now hv hfresh⟩

set_option maxRecDepth 8192 in
/-- C5 witness: a 200-character title is accepted (and stored as is,
being already trimmed); the empty title and a 201-character title are
rejected with ValidationError. -/

theorem create_idea_validation_behavior_witness :
    Backend.create_idea emptyStore title200 none oidA 7 =
        (.ok (some { id := oidA, title := pyStrip title200,
                     description := none, votes := 0,
                     created_at := 7, updated_at := 7,
                     comments_count := 0 }),
          { emptyStore with ideas :=
              [mkIdeaDoc oidA (pyStrip title200) none 7] }) ∧
      pyStrip title200 = title200 ∧
      Backend.create_idea emptyStore "" none oidA 7 =
        (.error .validationError, emptyStore) ∧
      Backend.create_idea emptyStore title201 none oidA 7 =
        (.error .validationError, emptyStore) := by
  refine ⟨?_, by decide, ?_, ?_⟩
  · have h := (create_idea_validation_behavior emptyStore title200 none oidA 7).2
      (by decide) (by simp [emptyStore])
    simpa [emptyStore, pyOptStrip] using h
  · exact (create_idea_validation_behavior emptyStore "" none oidA 7).1.mpr
      (Or.inl (by decide))
  · exact (create_idea_validation_behavior emptyStore title201 none oidA 7).1.mpr
      (Or.inr (Or.inl (by decide)))

/-! ### Claim C9 -/

/-- C9 counterexample: the root variant's create response carries
votes 0 and equal timestamps, but it has no comments_count field at
all (its keys are exactly title, description, votes, created_at,
updated_at, id), so the returned record does not have
comments_count = 0. -/
theorem root_create_omits_comments_count :
    (Main.create_idea emptyStore darkReq oidA 0).1 = some rootCreateResp ∧
      ("votes", Main.JVal.i 0) ∈ rootCreateResp ∧
      ("created_at", Main.JVal.i 0) ∈ rootCreateResp ∧
      ("updated_at", Main.JVal.i 0) ∈ rootCreateResp ∧
      rootCreateResp.map Prod.fst =
        ["title", "description", "votes", "created_at", "updated_at", "id"] ∧
      "comments_count" ∉ rootCreateResp.map Prod.fst := by
  decide

/-- C9 amended: every successful backend create returns a record with
votes = 0, comments_count = 0 and created_at equal to updated_at (both
the current time); a successful root create returns a record with
votes 0 and created_at equal to updated_at, but omits the
comments_count field. -/
theorem create_idea_initial_fields (s : Store) (title : String)
    (descr : Option String) (newId : String) (now : Int)
    (hv : Backend.ideaCreateValid title descr = true)
    (hfresh : ∀ i ∈ s.ideas, i.id ≠ newId) :
    (∃ out st, Backend.create_idea s title descr newId now =
        (.ok (some out), st) ∧
      out.votes = 0 ∧ out.comments_count = 0 ∧
      out.created_at = now ∧ out.updated_at = now) ∧
    (∃ resp st, Main.create_idea s { title := title, description := descr }
        newId now = (some resp, st) ∧
      ("votes", Main.JVal.i 0) ∈ resp ∧
      ("created_at", Main.JVal.i now) ∈ resp ∧
      ("updated_at", Main.JVal.i now) ∈ resp ∧
      "comments_count" ∉ resp.map Prod.fst) := by
  constructor
  · exact ⟨_, _, backend_create_ok s title descr newId now hv hfresh,
      rfl, rfl, rfl, rfl⟩
  · refine ⟨_, _, root_create_ok s { title := title, description := descr }
      newId now hfresh, ?_, ?_, ?_, ?_⟩
    · simp [Main.serialize_doc, mkIdeaDoc]
    · simp [Main.serialize_doc, mkIdeaDoc]
    · simp [Main.serialize_doc, mkIdeaDoc]
    · simp [Main.serialize_doc, mkIdeaDoc]

/-- C9 witness: creating "Dark mode" with description "Add a dark
theme" at time 0 on an empty store: the backend record has votes 0,
comments_count 0 and equal timestamps; the root response has votes 0
and equal timestamps and lacks comments_count. -/
theorem create_idea_initial_fields_witness :
    (∃ out st, Backend.create_idea emptyStore "Dark mode"
        (some "Add a dark theme") oidA 0 = (.ok (some out), st) ∧
      out.votes = 0 ∧ out.comments_count = 0 ∧
      out.created_at = 0 ∧ out.updated_at = 0) ∧
    (∃ resp st, Main.create_idea emptyStore darkReq oidA 0 =
        (some resp, st) ∧
      ("votes", Main.JVal.i 0) ∈ resp ∧
      ("created_at", Main.JVal.i 0) ∈ resp ∧
      ("updated_at", Main.JVal.i 0) ∈ resp ∧
      "comments_count" ∉ resp.map Prod.fst) :=
  create_idea_initial_fields emptyStore "Dark mode" (some "Add a dark theme")
    oidA 0 (by decide) (by simp [emptyStore])

/-! ### Claim C10 -/

/-- C10: the backend variant validates the untrimmed input — the
one-space title " " has length 1 (within the 1..200 bound), so it is
accepted, and the persisted and returned title is the empty string
after trimming. -/
theorem backend_create_untrimmed_validation :
    (1 ≤ (" ").length ∧ (" ").length ≤ 200) ∧
      Backend.ideaCreateValid " " none = true ∧
      Backend.create_idea emptyStore " " none oidA 0 =
        (.ok (some { id := oidA, title := "", description := none, votes := 0,
                     created_at := 0, updated_at := 0, comments_count := 0 }),
          { ideas := [{ id := oidA, title := "", description := none,
                        votes := 0, created_at := 0, updated_at := 0 }],
            comments := [] }) := by
  refine ⟨by decide, by decide, ?_⟩
  rfl
